import Mathlib

/-!
Verification of the OpenMeter Cloudflare Workers usage-metering core.

Shallow embedding of the event-ingestion and usage-aggregation pipeline of
the `chr33s/openmeter` Cloudflare implementation:

* `src/cf/api/services/events.ts` — `EventsService` (`ingestEvent`,
  `ingestBatchEvents`, `findOrCreateSubject`, `findMeterByEventType`,
  `extractEventValue`);
* the usage routes (`GET /query`, `GET /report`, `timeBucketExpr`);
* the events routes (`POST /`, `POST /batch`, `checkIdempotency`,
  `storeIdempotencyResult`);
* the meters list route (soft-delete filtering);
* `CacheService` (KV get/set/invalidate-by-prefix).

Modelling conventions:

* JavaScript numbers are modelled as exact rationals (`ℚ`); in-memory
  timestamps as epoch milliseconds (`Nat`).  `Infinity`/float rounding are
  out of scope.
* The `events.timestamp` Drizzle column is declared
  `integer("timestamp", ... mode "timestamp")`, whose driver mapping writes
  `Math.floor(date.getTime() / 1000)` — epoch seconds — and `schema.sql`
  defaults the same column to `unixepoch()`.  The model therefore stores
  `ms / 1000` in `EventRow.timestamp`, and the usage query's range bounds
  (JS `Date` parameters mapped by the same column) are divided by 1000 in
  `eventMatches`.
* The D1/SQLite store is a record of row lists; SQL `SELECT ... LIMIT 1`
  becomes `List.find?`, inserts append rows, `GROUP BY k ORDER BY k` becomes
  dedup + sort by SQLite's BINARY collation (byte-wise comparison), which is
  modelled explicitly by `cmpBytes` below.
* `crypto.randomUUID()` is modelled by a fresh-id counter threaded through
  the store.
* The KV cache is an association list with the entry-embedded
  `timestamp`/`ttl` expiry check that `CacheService.get` performs.
* SQLite `strftime`/`datetime` render the proleptic-Gregorian UTC civil time
  of the unix timestamp; `civilFromDays` is the standard days-to-civil
  algorithm computing exactly that.
-/

namespace OpenMeter

/-! ## Byte-wise string comparison (SQLite BINARY collation) -/


/-- Three-way byte-wise comparison of character lists: the order SQLite's
BINARY collation gives to the ASCII bucket strings produced by
`timeBucketExpr` (memcmp, shorter prefix first). -/

def cmpBytes : List Char → List Char → Ordering
  | [], [] => .eq
  | [], _ :: _ => .lt
  | _ :: _, [] => .gt
  | a :: as, b :: bs =>
    if a.toNat < b.toNat then .lt
    else if b.toNat < a.toNat then .gt
    else cmpBytes as bs

/-- The `ORDER BY ... ASC` comparison on TEXT under BINARY collation. -/

def bytesLe (a b : List Char) : Bool :=
  match cmpBytes a b with
  | .gt => false
  | _ => true

def strCmp (a b : String) : Ordering := cmpBytes a.data b.data

def strLeB (a b : String) : Bool := bytesLe a.data b.data

/-- Strict version of `strLeB`. -/

def strLtB (a b : String) : Bool :=
  match strCmp a b with
  | .lt => true
  | _ => false

/-! ## Zero-padded decimal rendering (strftime field formatting) -/


/-- The rendering `padNum w n` produces `n` as exactly `w` decimal digits (most significant
first, leading zeros), provided `n < 10 ^ w`; this is how `strftime` renders
`%Y` (w = 4) and `%m`, `%d`, `%H`, `%M`, `%S` (w = 2). -/

def padNum : Nat → Nat → List Char
  | 0, _ => []
  | w + 1, n => padNum w (n / 10) ++ [Char.ofNat (48 + n % 10)]

/-! ## Civil (proleptic Gregorian, UTC) time -/


/-- A UTC civil datetime, second precision.  Chronological order of civil
datetimes is lexicographic order of the six fields. -/

structure CivilTime where
  year : Nat
  month : Nat
  day : Nat
  hour : Nat
  minute : Nat
  second : Nat
deriving DecidableEq, Repr

/-- Chronological (lexicographic) strict order on civil datetimes. -/

def CivilTime.ltB (a b : CivilTime) : Bool :=
  if a.year ≠ b.year then a.year < b.year
  else if a.month ≠ b.month then a.month < b.month
  else if a.day ≠ b.day then a.day < b.day
  else if a.hour ≠ b.hour then a.hour < b.hour
  else if a.minute ≠ b.minute then a.minute < b.minute
  else a.second < b.second

/-- Days-since-1970-01-01 to Gregorian `(year, month, day)`: the standard
civil-from-days algorithm (era of 400 years = 146097 days), which is what
SQLite's `datetime(…, 'unixepoch')` computes for the date part. -/

def civilFromDays (d : Nat) : Nat × Nat × Nat :=
  let z := d + 719468
  let era := z / 146097
  let doe := z % 146097
  let yoe := (doe - doe / 1460 + doe / 36524 - doe / 146096) / 365
  let y := yoe + era * 400
  let doy := doe - (365 * yoe + yoe / 4 - yoe / 100)
  let mp := (5 * doy + 2) / 153
  let dd := doy - (153 * mp + 2) / 5 + 1
  let m := if mp < 10 then mp + 3 else mp - 9
  (if m ≤ 2 then y + 1 else y, m, dd)

/-- Civil UTC datetime of an epoch-millisecond timestamp (sub-second part
dropped, as `datetime(ts / 1000, 'unixepoch')` does). -/

def civilOfMs (ms : Nat) : CivilTime :=
  let secs := ms / 1000
  let ymd := civilFromDays (secs / 86400)
  let sod := secs % 86400
  { year := ymd.1, month := ymd.2.1, day := ymd.2.2
    hour := sod / 3600, minute := sod % 3600 / 60, second := sod % 60 }

/-- ISO-8601 rendering `YYYY-MM-DDTHH:MM:SS.000Z` of a civil datetime (the
shape of every string produced by `timeBucketExpr`). -/

def renderIso (c : CivilTime) : List Char :=
  padNum 4 c.year ++ ['-'] ++ padNum 2 c.month ++ ['-'] ++ padNum 2 c.day ++
    ['T'] ++ padNum 2 c.hour ++ [':'] ++ padNum 2 c.minute ++ [':'] ++
    padNum 2 c.second ++ ['.', '0', '0', '0', 'Z']

/-! ## Window sizes and the bucket expression -/


inductive WindowSize
  | SECOND | MINUTE | HOUR | DAY | MONTH
deriving DecidableEq, Repr

/-- Value computed, for a row whose stored `timestamp` column holds `ts`, by
the SQL fragment that `timeBucketExpr(windowSize)` builds:

* SECOND: `strftime('%Y-%m-%dT%H:%M:%S.000Z', datetime(ts/1000,'unixepoch'))`
* MINUTE: `strftime('%Y-%m-%dT%H:%M:00.000Z', …)`
* HOUR:   `strftime('%Y-%m-%dT%H:00:00.000Z', …)`
* DAY:    `strftime('%Y-%m-%dT00:00:00.000Z', …)`
* MONTH:  `printf('%s-01T00:00:00.000Z', strftime('%Y-%m', …))`

(the `default` switch arm coincides with the HOUR arm).  `civilOfMs ts` is
exactly `datetime(ts / 1000, 'unixepoch')`: integer division by 1000, then
the civil time of the quotient taken as epoch seconds.  Note the column this
fragment is applied to stores epoch seconds (see `EventRow`), so the civil
time rendered is that of `storedSeconds / 1000`, not of the event's actual
timestamp — the comment `stored as integer (ms)` next to the fragment in the
route source contradicts the schema. -/

def timeBucketExpr (windowSize : WindowSize) (ts : Nat) : String :=
  let c := civilOfMs ts
  match windowSize with
  | .SECOND => String.mk (renderIso c)
  | .MINUTE => String.mk (renderIso { c with second := 0 })
  | .HOUR => String.mk (renderIso { c with minute := 0, second := 0 })
  | .DAY => String.mk (renderIso { c with hour := 0, minute := 0, second := 0 })
  | .MONTH => String.mk (renderIso
      { c with day := 1, hour := 0, minute := 0, second := 0 })

/-- Calendar-aligned truncation of a civil datetime to the start of its
window, as the specification words it: SECOND drops sub-second (already
absent at this precision); MINUTE drops seconds; HOUR drops minutes and
seconds; DAY truncates to midnight UTC; MONTH truncates to the 1st of the
month at midnight UTC. -/

def truncCivil (windowSize : WindowSize) (c : CivilTime) : CivilTime :=
  match windowSize with
  | .SECOND => c
  | .MINUTE => { c with second := 0 }
  | .HOUR => { c with minute := 0, second := 0 }
  | .DAY => { c with hour := 0, minute := 0, second := 0 }
  | .MONTH => { c with day := 1, hour := 0, minute := 0, second := 0 }

/-! ## Data model

Row types for the Drizzle tables in `services/database.ts` (columns not read
by the modelled core — `name`, `description`, `eventFrom`, `groupBy`,
`metadata`, `stripeCustomerId`, `createdAt`, `updatedAt` — are omitted). -/


inductive Aggregation
  | SUM | COUNT | AVG | MIN | MAX | UNIQUE_COUNT | LATEST
deriving DecidableEq, Repr

/-- A JSON value inside an event's free-form `properties` bag, as far as
`extractEventValue` can distinguish them (`typeof` number / string / other). -/

inductive PropValue
  | num (q : ℚ)
  | str (s : String)
  | boolV (b : Bool)
  | nullV
  | objV
deriving DecidableEq, Repr

/-- A JS object used as a string-keyed map (first binding wins on lookup). -/

abbrev Properties := List (String × PropValue)

structure Meter where
  id : String
  ns : String
  key : String
  aggregation : Aggregation
  eventType : String
  valueProperty : Option String
  deletedAt : Option Nat
deriving DecidableEq, Repr

structure Subject where
  id : String
  ns : String
  key : String
  displayName : Option String
  deletedAt : Option Nat
deriving DecidableEq, Repr

/-- A persisted row of the `events` table.  Note the table has no
`namespace` column: events are tied to a tenant only through `meterId` and
`subjectId`.  The `timestamp` field is the raw integer the column stores:
epoch seconds, because the Drizzle column mode `timestamp` maps a `Date`
to `Math.floor(ms / 1000)` on write (and `schema.sql` defaults the column
to `unixepoch()`). -/

structure EventRow where
  id : String
  meterId : String
  subjectId : String
  timestamp : Nat
  value : ℚ
  properties : Option Properties
deriving DecidableEq, Repr

/-- The D1 store: the three tables the core touches, plus a counter modelling
`crypto.randomUUID()` id generation. -/

structure Store where
  meters : List Meter
  subjects : List Subject
  events : List EventRow
  nextId : Nat
deriving DecidableEq, Repr

/-- Body of `POST /events` after `IngestEventSchema` validation
(`timestamp` already converted to epoch ms as `new Date(…)` does). -/

structure IngestEventRequest where
  subject : String
  type : String
  timestamp : Option Nat
  value : Option ℚ
  properties : Option Properties
deriving DecidableEq, Repr

/-! ## parseFloat

Model of JavaScript `parseFloat` on the finite-number fragment: optional
whitespace, optional sign, decimal digits with optional fraction and
optional exponent, longest valid prefix; `none` models `NaN` (no digits).
(`parseFloat("Infinity")` and double rounding are outside the rational
model.) -/


/-- Consume a maximal run of decimal digits, returning accumulated value,
count of digits consumed, and the rest. -/

def lexDigits : List Char → Nat → Nat → Nat × Nat × List Char
  | c :: cs, acc, cnt =>
    if c.isDigit then lexDigits cs (acc * 10 + (c.toNat - 48)) (cnt + 1)
    else (acc, cnt, c :: cs)
  | [], acc, cnt => (acc, cnt, [])

def parseFloat (s : String) : Option ℚ :=
  let cs := s.data.dropWhile fun c =>
    c = ' ' || c = '\t' || c = '\n' || c = '\r' || c = '\x0b' || c = '\x0c'
  let signRest : Bool × List Char :=
    match cs with
    | '-' :: r => (true, r)
    | '+' :: r => (false, r)
    | _ => (false, cs)
  let neg := signRest.1
  let intPart := lexDigits signRest.2 0 0
  let fracPart : Nat × Nat × List Char :=
    match intPart.2.2 with
    | '.' :: r => lexDigits r 0 0
    | r => (0, 0, r)
  if intPart.2.1 + fracPart.2.1 = 0 then none
  else
    let mantissa : ℚ :=
      (intPart.1 : ℚ) + (fracPart.1 : ℚ) / ((10 : ℚ) ^ fracPart.2.1)
    let expPart : ℚ :=
      match fracPart.2.2 with
      | 'e' :: r => parseExp r
      | 'E' :: r => parseExp r
      | _ => 1
    some ((if neg then -mantissa else mantissa) * expPart)
where
  /-- Exponent factor `10 ^ (±digits)`, `1` if the exponent is malformed
  (JS ignores a dangling `e`). -/
  parseExp (r : List Char) : ℚ :=
    let signRest : Bool × List Char :=
      match r with
      | '-' :: r2 => (true, r2)
      | '+' :: r2 => (false, r2)
      | _ => (false, r)
    let d := lexDigits signRest.2 0 0
    if d.2.1 = 0 then 1
    else if signRest.1 then 1 / ((10 : ℚ) ^ d.1) else (10 : ℚ) ^ d.1

/-! ## Value extraction (`EventsService.extractEventValue`) -/


/-- The tail of `extractEventValue` after the configured-property block:
explicit `value` if provided, else `1` for COUNT meters, else `0`. -/

def extractEventValueDefault (eventData : IngestEventRequest) (meter : Meter) : ℚ :=
  match eventData.value with
  | some v => v
  | none => if meter.aggregation = Aggregation.COUNT then 1 else 0

/-- Model of `EventsService.extractEventValue`, mirroring the TS control flow: the
`meter.valueProperty && eventData.properties` guard (JS truthiness: an empty
`valueProperty` string is falsy), then `typeof value === "number"`,
`typeof value === "string"` with `parseFloat`/`isNaN`, then the fallthrough
defaults. -/

def extractEventValue (eventData : IngestEventRequest) (meter : Meter) : ℚ :=
  match meter.valueProperty, eventData.properties with
  | some vp, some props =>
    if vp = "" then extractEventValueDefault eventData meter
    else
      match props.lookup vp with
      | some (PropValue.num v) => v
      | some (PropValue.str s) =>
        match parseFloat s with
        | some parsed => parsed
        | none => extractEventValueDefault eventData meter
      | _ => extractEventValueDefault eventData meter
  | _, _ => extractEventValueDefault eventData meter

/-- Modelled from the spec (§4.2 Value Extractor), for comparison with the
implementation: 1. if `meter.valueProperty` is set and `properties` contains
that key, coerce to number — numeric value used as-is, numeric-looking
string parsed, otherwise fall through; 2. else the explicit `value`; 3. else
`1` when aggregation is COUNT; 4. else `0`.  "Is set" is read as the JS
truthiness test the implementation performs: present and non-empty. -/

def extractValueSpec (event : IngestEventRequest) (meter : Meter) : ℚ :=
  let configured : Option ℚ :=
    match meter.valueProperty, event.properties with
    | some vp, some props =>
      if vp ≠ "" then
        match props.lookup vp with
        | some (PropValue.num n) => some n
        | some (PropValue.str s) => parseFloat s
        | _ => none
      else none
    | _, _ => none
  match configured with
  | some n => n
  | none =>
    match event.value with
    | some v => v
    | none => if meter.aggregation = Aggregation.COUNT then 1 else 0

/-! ## Ingestion (`EventsService`) -/


/-- Fresh row id, modelling `crypto.randomUUID()`. -/

def Store.freshId (st : Store) : String := "id-" ++ toString st.nextId

/-- Model of `EventsService.findMeterByEventType`: `SELECT … FROM meters WHERE
namespace = ? AND event_type = ? LIMIT 1`.  Note: no `deletedAt` filter —
soft-deleted meters still resolve. -/

def findMeterByEventType (ns eventType : String) (st : Store) : Option Meter :=
  st.meters.find? fun m => m.ns = ns && m.eventType = eventType

/-- Model of `EventsService.findOrCreateSubject`: select by `(namespace, key)`
`LIMIT 1`; if absent, insert a new subject with `displayName = key` and
return it. -/

def findOrCreateSubject (ns subjectKey : String) (st : Store) :
    Subject × Store :=
  match st.subjects.find? (fun s => s.ns = ns && s.key = subjectKey) with
  | some s => (s, st)
  | none =>
    let newSubject : Subject :=
      { id := st.freshId, ns := ns, key := subjectKey,
        displayName := some subjectKey, deletedAt := none }
    (newSubject,
      { st with subjects := st.subjects ++ [newSubject],
                nextId := st.nextId + 1 })

structure SingleResult where
  eventId : String
  processed : Bool
deriving DecidableEq, Repr

/-- Model of `EventsService.ingestEvent`: find-or-create the subject, resolve the
meter by event type (failing with `No meter found for event type: …` when
absent), extract the value, insert the event row with
`timestamp = event.timestamp ?? now` — a `Date` in epoch milliseconds which
the Drizzle column (integer, mode `timestamp`) persists as
`Math.floor(ms / 1000)` epoch seconds, modelled by the `/ 1000`.  The store
is returned alongside the result in every case because D1 writes performed
before a thrown error (the lazily created subject) persist — there is no
transaction. -/

def ingestEvent (ns : String) (eventData : IngestEventRequest) (now : Nat)
    (st : Store) : Except String SingleResult × Store :=
  let sub := findOrCreateSubject ns eventData.subject st
  match findMeterByEventType ns eventData.type sub.2 with
  | none =>
    (.error ("No meter found for event type: " ++ eventData.type), sub.2)
  | some meter =>
    let value := extractEventValue eventData meter
    let st1 := sub.2
    let row : EventRow :=
      { id := st1.freshId, meterId := meter.id, subjectId := sub.1.id,
        timestamp := (eventData.timestamp.getD now) / 1000, value := value,
        properties := eventData.properties }
    (.ok { eventId := row.id, processed := true },
      { st1 with events := st1.events ++ [row], nextId := st1.nextId + 1 })

structure BatchResult where
  totalEvents : Nat
  processedEvents : Nat
  failedEvents : Nat
  errors : List String
deriving DecidableEq, Repr

/-- Inner loop of `ingestBatchEvents` over one chunk: each event is tried in
order; a success bumps `processedEvents`, a failure bumps `failedEvents` and
pushes `Event <absolute index>: <message>` (the `i + chunk.indexOf(…)` index
computation; parsed batch elements are distinct objects, so `indexOf` is the
position in the chunk). -/

def processSeq (ns : String) (now : Nat) :
    List IngestEventRequest → Nat → Store → Nat × Nat × List String →
      Store × Nat × Nat × List String
  | [], _, st, acc => (st, acc)
  | e :: rest, i, st, acc =>
    match ingestEvent ns e now st with
    | (.ok _, st1) =>
      processSeq ns now rest (i + 1) st1 (acc.1 + 1, acc.2.1, acc.2.2)
    | (.error msg, st1) =>
      processSeq ns now rest (i + 1) st1
        (acc.1, acc.2.1 + 1,
          acc.2.2 ++ ["Event " ++ toString i ++ ": " ++ msg])

/-- Outer loop of `ingestBatchEvents`: `for (let i = 0; i < n; i += 100)`
over `slice(i, i + 100)` chunks. -/

def processChunks (ns : String) (now : Nat) (evs : List IngestEventRequest)
    (i : Nat) (st : Store) (acc : Nat × Nat × List String) :
    Store × Nat × Nat × List String :=
  if h : evs = [] then (st, acc)
  else
    let r := processSeq ns now (evs.take 100) i st acc
    processChunks ns now (evs.drop 100) (i + 100) r.1 r.2
termination_by evs.length
decreasing_by
  have : evs.length ≠ 0 := fun hl => h (List.eq_nil_of_length_eq_zero hl)
  simp only [List.length_drop]
  omega

/-- Model of `EventsService.ingestBatchEvents`: chunked, partial-failure-tolerant
batch processing. -/

def ingestBatchEvents (ns : String) (events : List IngestEventRequest)
    (now : Nat) (st : Store) : BatchResult × Store :=
  let r := processChunks ns now events 0 st (0, 0, [])
  ({ totalEvents := events.length, processedEvents := r.2.1,
     failedEvents := r.2.2.1, errors := r.2.2.2 }, r.1)

/-- Reference sequential run of a batch, as the spec describes it: every
event is attempted in order regardless of earlier failures; returns the
`(0-based index, message)` list of failures in order, the number of
successes, and the final store. -/

def batchSpec (ns : String) (now : Nat) :
    List IngestEventRequest → Nat → Store →
      List (Nat × String) × Nat × Store
  | [], _, st => ([], 0, st)
  | e :: rest, i, st =>
    match ingestEvent ns e now st with
    | (.ok _, st1) =>
      let r := batchSpec ns now rest (i + 1) st1
      (r.1, r.2.1 + 1, r.2.2)
    | (.error msg, st1) =>
      let r := batchSpec ns now rest (i + 1) st1
      ((i, msg) :: r.1, r.2.1, r.2.2)

def formatBatchError (p : Nat × String) : String :=
  "Event " ++ toString p.1 ++ ": " ++ p.2

/-! ## Usage aggregation (`GET /usage/query`, `GET /usage/report`) -/


/-- Insert into a `strLeB`-ascending list. -/

def insertStrAsc (x : String) : List String → List String
  | [] => [x]
  | y :: ys => if strLeB x y then x :: y :: ys else y :: insertStrAsc x ys

/-- Ascending sort under SQLite BINARY collation: the `ORDER BY bucket`
of the grouped select. -/

def sortStrAsc : List String → List String
  | [] => []
  | x :: xs => insertStrAsc x (sortStrAsc xs)

/-- JS truthiness of an optional string parameter (`if (query.meterId)`):
absent or empty means the filter is not applied. -/

def strParamSet : Option String → Bool
  | some s => s ≠ ""
  | none => false

/-- The handlers' guard `query.groupBy && query.groupBy.length > 0`. -/

def groupByRequested : Option (List String) → Bool
  | some l => l.length > 0
  | none => false

/-- Parameters of `GET /usage/query` after `UsageQuerySchema` validation
(`from`/`to` already converted to epoch ms). -/

structure UsageQueryRequest where
  meterId : Option String
  subjectId : Option String
  fromTs : Nat
  toTs : Nat
  windowSize : Option WindowSize
  groupBy : Option (List String)
deriving DecidableEq, Repr

structure UsageDataPoint where
  timestamp : String
  value : ℚ
deriving DecidableEq, Repr

structure UsageQueryResponse where
  meterId : String
  subjectId : Option String
  fromTs : Nat
  toTs : Nat
  windowSize : WindowSize
  data : List UsageDataPoint
deriving DecidableEq, Repr

/-- The error body's `code` (messages elided). -/

inductive ApiError
  | GROUP_BY_NOT_SUPPORTED
  | BATCH_TOO_LARGE
deriving DecidableEq, Repr

deriving instance DecidableEq for Except

/-- Aggregation selection of both usage handlers: default SUM; if a meterId
is supplied (truthy) and the meter found by `id` (no namespace condition)
has aggregation COUNT, use COUNT. -/

def selectCountAgg (st : Store) (meterId : Option String) : Bool :=
  match meterId with
  | some mid =>
    if mid = "" then false
    else
      match st.meters.find? (fun m => m.id = mid) with
      | some m => m.aggregation = Aggregation.COUNT
      | none => false
  | none => false

/-- One filter condition `events.meterId = ?` / `events.subjectId = ?`,
pushed only when the parameter is truthy. -/

def optEq (p : Option String) (v : String) : Bool :=
  match p with
  | some s => if s = "" then true else v = s
  | none => true

/-- The `WHERE` conjunction of the usage query: `timestamp ∈ [from, to]`
(inclusive) plus the optional equality filters.  The `from`/`to` `Date`
parameters go through the same seconds-mode column mapping as the stored
value (`Math.floor(ms / 1000)`), so the range comparison is between epoch
seconds on both sides — the filter is unit-consistent.  There is no
namespace condition — the `events` table has no namespace column. -/

def eventMatches (q : UsageQueryRequest) (e : EventRow) : Bool :=
  decide (q.fromTs / 1000 ≤ e.timestamp) &&
    decide (e.timestamp ≤ q.toTs / 1000) &&
    optEq q.meterId e.meterId && optEq q.subjectId e.subjectId

/-- Sum `SUM(value)` over a group. -/

def sumValues (rows : List EventRow) : ℚ :=
  rows.foldr (fun e acc => e.value + acc) 0

/-- Model of `GET /usage/query`: reject non-empty `groupBy`; default window HOUR;
select COUNT or SUM per meter aggregation; filter, group by the bucket
string, aggregate per group, order ascending by bucket string.  (The
read-through response cache sits behind the `groupBy` check and, being a
pure optimization, is not part of the computation modelled here.) -/

def usageQuery (st : Store) (q : UsageQueryRequest) :
    Except ApiError UsageQueryResponse :=
  if groupByRequested q.groupBy then .error .GROUP_BY_NOT_SUPPORTED
  else
    let windowSize := q.windowSize.getD .HOUR
    let isCount := selectCountAgg st q.meterId
    let rows := st.events.filter (eventMatches q)
    let keys :=
      sortStrAsc (rows.map fun e => timeBucketExpr windowSize e.timestamp).dedup
    let data := keys.map fun k =>
      let grp := rows.filter fun e =>
        timeBucketExpr windowSize e.timestamp == k
      { timestamp := k,
        value := if isCount then (grp.length : ℚ) else sumValues grp
        : UsageDataPoint }
    .ok { meterId := q.meterId.getD "", subjectId := q.subjectId,
          fromTs := q.fromTs, toTs := q.toTs, windowSize := windowSize,
          data := data }

/-- Parameters of `GET /usage/report` (validated by the partial schema). -/

structure UsageReportRequest where
  meterId : Option String
  subjectId : Option String
  fromTs : Option Nat
  toTs : Option Nat
  groupBy : Option (List String)
deriving DecidableEq, Repr

structure TopSubject where
  subjectId : String
  value : ℚ
deriving DecidableEq, Repr

structure UsageReportResponse where
  meterId : String
  subjectId : Option String
  fromTs : Nat
  toTs : Nat
  total : ℚ
  topSubjects : List TopSubject
deriving DecidableEq, Repr

/-- Insert into a value-descending list (`ORDER BY value DESC`; SQL leaves
tie order unspecified, this model keeps earlier groups first). -/

def insertTopDesc (x : TopSubject) : List TopSubject → List TopSubject
  | [] => [x]
  | y :: ys =>
    if y.value < x.value then x :: y :: ys else y :: insertTopDesc x ys

def sortTopDesc : List TopSubject → List TopSubject
  | [] => []
  | x :: xs => insertTopDesc x (sortTopDesc xs)

/-- Model of `GET /usage/report`: reject non-empty `groupBy`; default range
`[now − 24h, now]`; same COUNT/SUM selection and filters as the query
endpoint; one total over the whole range plus a top-10 per-subject
breakdown ordered by value descending. -/

def usageReport (st : Store) (q : UsageReportRequest) (now : Nat) :
    Except ApiError UsageReportResponse :=
  if groupByRequested q.groupBy then .error .GROUP_BY_NOT_SUPPORTED
  else
    let fromTs := q.fromTs.getD (now - 24 * 3600 * 1000)
    let toTs := q.toTs.getD now
    let isCount := selectCountAgg st q.meterId
    let filt : UsageQueryRequest :=
      { meterId := q.meterId, subjectId := q.subjectId, fromTs := fromTs,
        toTs := toTs, windowSize := none, groupBy := none }
    let rows := st.events.filter (eventMatches filt)
    let total := if isCount then (rows.length : ℚ) else sumValues rows
    let keys := (rows.map fun e => e.subjectId).dedup
    let groups := keys.map fun k =>
      let grp := rows.filter fun e => e.subjectId == k
      { subjectId := k,
        value := if isCount then (grp.length : ℚ) else sumValues grp
        : TopSubject }
    .ok { meterId := q.meterId.getD "", subjectId := q.subjectId,
          fromTs := fromTs, toTs := toTs, total := total,
          topSubjects := (sortTopDesc groups).take 10 }

/-! ## KV cache and idempotency (`CacheService`, events routes) -/


/-- A JSON value the routes store in the cache (we only need the two
idempotency payload shapes). -/

inductive CachedVal
  | single (r : SingleResult)
  | batch (b : BatchResult)
deriving DecidableEq, Repr

/-- One KV entry as `CacheService.set` writes it: the payload plus the
embedded `timestamp`/`ttl` pair its `get` checks. -/

structure KVCacheEntry where
  key : String
  value : CachedVal
  timestamp : Nat
  ttl : Nat
deriving DecidableEq, Repr

abbrev Cache := List KVCacheEntry

/-- Byte-wise prefix test (what `kv.list({ prefix })` matches on). -/

def listIsPrefixOf : List Char → List Char → Bool
  | [], _ => true
  | _ :: _, [] => false
  | a :: as, b :: bs => a == b && listIsPrefixOf as bs

def strIsPrefixOf (p s : String) : Bool := listIsPrefixOf p.data s.data

/-- Model of `CacheService.get`: KV lookup plus the entry-embedded expiry check
`cached.timestamp && cached.ttl && now > cached.timestamp + cached.ttl *
1000` (JS truthiness: the check only fires when both fields are non-zero).
The expired entry is also deleted; the deletion is unobservable to later
reads, which see the same expiry, so `get` is modelled as a pure read. -/

def cacheGet (c : Cache) (key : String) (now : Nat) : Option CachedVal :=
  match c.find? (fun e => e.key = key) with
  | none => none
  | some e =>
    if e.timestamp ≠ 0 && e.ttl ≠ 0 &&
        decide (now > e.timestamp + e.ttl * 1000)
    then none
    else some e.value

/-- Model of `CacheService.set`: `kv.put` (overwrite) with embedded
timestamp/ttl. -/

def cacheSet (c : Cache) (key : String) (v : CachedVal) (now ttl : Nat) :
    Cache :=
  { key := key, value := v, timestamp := now, ttl := ttl } ::
    c.filter (fun e => e.key != key)

/-- Model of `CacheService.createKey(prefix, ...parts)`. -/

def createKey (pfx : String) (parts : List String) : String :=
  pfx ++ ":" ++ String.intercalate ":" parts

/-- Model of `CacheService.invalidatePattern`: delete every key with the given
prefix. -/

def invalidatePattern (c : Cache) (pfx : String) : Cache :=
  c.filter (fun e => !(strIsPrefixOf pfx e.key))

/-- Model of `checkIdempotency` of the events routes: cache lookup under
`idempotency:<namespace>:<operation>:<key>`. -/

def checkIdempotency (c : Cache) (key ns operation : String) (now : Nat) :
    Option CachedVal :=
  cacheGet c (createKey "idempotency" [ns, operation, key]) now

/-- Model of `storeIdempotencyResult`: store under the same key for 24 hours. -/

def storeIdempotencyResult (c : Cache) (key ns operation : String)
    (v : CachedVal) (now : Nat) : Cache :=
  cacheSet c (createKey "idempotency" [ns, operation, key]) v now
    (24 * 60 * 60)

inductive PostEventResponse
  | replayed (v : CachedVal)
  | created (r : SingleResult) (respondedAt : Nat)
  | serverError (msg : String)
deriving DecidableEq, Repr

/-- Tail of the `POST /` handler once the idempotency cache missed:
ingest, store the idempotency result (when a key was supplied), invalidate
the `events:<namespace>` read cache, answer `201`.  A thrown ingest error
skips the cache writes but keeps the store mutations made before the
throw. -/

def postEventIngest (ns : String) (key? : Option String)
    (body : IngestEventRequest) (now : Nat) (st : Store) (cache : Cache) :
    PostEventResponse × Store × Cache :=
  match ingestEvent ns body now st with
  | (.error msg, st1) => (.serverError msg, st1, cache)
  | (.ok r, st1) =>
    let cache1 :=
      match key? with
      | some k => storeIdempotencyResult cache k ns "single-event"
          (.single r) now
      | none => cache
    let cache2 := invalidatePattern cache1 ("events:" ++ ns)
    (.created r now, st1, cache2)

/-- Model of `POST /api/v1/events`: check the idempotency cache first (when a
truthy `Idempotency-Key` header was supplied) and return the stored result
verbatim on a hit; otherwise ingest and store the result. -/

def postEvent (ns : String) (idempotencyKey : Option String)
    (body : IngestEventRequest) (now : Nat) (st : Store) (cache : Cache) :
    PostEventResponse × Store × Cache :=
  let key? : Option String :=
    match idempotencyKey with
    | some k => if k = "" then none else some k
    | none => none
  match key? with
  | some k =>
    match checkIdempotency cache k ns "single-event" now with
    | some v => (.replayed v, st, cache)
    | none => postEventIngest ns (some k) body now st cache
  | none => postEventIngest ns none body now st cache

/-! ## Meters listing (soft-delete filtering) -/


/-- The `GET /api/v1/meters` list conditions: always `namespace = ?`, plus
`deletedAt IS NULL` unless `includeDeleted` is requested.  (The optional
search/aggregation/eventType filters and pagination apply after these and
are orthogonal to the claims; result ordering is not modelled.) -/

def listMeters (ns : String) (includeDeleted : Bool) (st : Store) :
    List Meter :=
  st.meters.filter fun m => m.ns = ns && (includeDeleted || m.deletedAt.isNone)

/-! ## Rendering is order-preserving on bounded civil times -/


/-- Field bounds under which each `renderIso` field fits its fixed width
(every civil time of a representable timestamp satisfies them). -/

def CivilBounded (c : CivilTime) : Prop :=
  c.year < 10000 ∧ c.month < 100 ∧ c.day < 100 ∧ c.hour < 100 ∧
    c.minute < 100 ∧ c.second < 100

/-- Three-way lexicographic (chronological) comparison of civil times. -/

def CivilTime.cmp (a b : CivilTime) : Ordering :=
  (compare a.year b.year).then ((compare a.month b.month).then
    ((compare a.day b.day).then ((compare a.hour b.hour).then
      ((compare a.minute b.minute).then (compare a.second b.second)))))

/-! The development's theorems follow. -/

theorem timeBucketExpr_eq_render_trunc (ws : WindowSize) (ts : Nat) :
    timeBucketExpr ws ts = String.mk (renderIso (truncCivil ws (civilOfMs ts))) := by
  cases ws <;> rfl

/-- Claim C2: for every inbound event and resolved meter, the ingested numeric
value follows exactly the priority configured-property → explicit value →
aggregation-aware default (1 for COUNT, else 0): `extractEventValue` agrees
with the specification cascade `extractValueSpec` on all inputs, and on the
spec's P1 fixtures a configured property wins over an explicit value (10 over
5), an explicit value is used when no property is configured (5), and a
missing value defaults to 1 for COUNT and 0 for SUM. -/

theorem extractEventValue_priority :
    (∀ (e : IngestEventRequest) (m : Meter),
      extractEventValue e m = extractValueSpec e m) ∧
    extractEventValue
      { subject := "s", type := "t", timestamp := none, value := some 5,
        properties := some [("amount", PropValue.num 10)] }
      { id := "m1", ns := "default", key := "k", aggregation := .SUM,
        eventType := "t", valueProperty := some "amount",
        deletedAt := none } = 10 ∧
    extractEventValue
      { subject := "s", type := "t", timestamp := none, value := some 5,
        properties := none }
      { id := "m1", ns := "default", key := "k", aggregation := .SUM,
        eventType := "t", valueProperty := none, deletedAt := none } = 5 ∧
    extractEventValue
      { subject := "s", type := "t", timestamp := none, value := none,
        properties := none }
      { id := "m1", ns := "default", key := "k", aggregation := .COUNT,
        eventType := "t", valueProperty := none, deletedAt := none } = 1 ∧
    extractEventValue
      { subject := "s", type := "t", timestamp := none, value := none,
        properties := none }
      { id := "m1", ns := "default", key := "k", aggregation := .SUM,
        eventType := "t", valueProperty := none, deletedAt := none } = 0 := by
  refine ⟨fun e m => ?_, rfl, rfl, rfl, rfl⟩
  simp only [extractEventValue, extractValueSpec]
  rcases hv : m.valueProperty with _ | vp <;>
    rcases hp : e.properties with _ | props <;>
    simp [hv, hp, extractEventValueDefault]
  by_cases hvp : vp = ""
  · simp [hvp]
  · simp only [hvp, if_false]
    rcases hlk : List.lookup vp props with _ | pv
    · rfl
    · cases pv <;> rfl

theorem processSeq_eq_batchSpec (ns : String) (now : Nat) :
    ∀ (evs : List IngestEventRequest) (i : Nat) (st : Store)
      (acc : Nat × Nat × List String),
      processSeq ns now evs i st acc =
        ((batchSpec ns now evs i st).2.2,
         acc.1 + (batchSpec ns now evs i st).2.1,
         acc.2.1 + (batchSpec ns now evs i st).1.length,
         acc.2.2 ++ (batchSpec ns now evs i st).1.map formatBatchError) := by
  intro evs
  induction evs with
  | nil => intro i st acc; simp [processSeq, batchSpec]
  | cons e rest ih =>
    intro i st acc
    simp only [processSeq, batchSpec]
    rcases hie : ingestEvent ns e now st with ⟨res, st1⟩
    cases res <;> (simp [ih, Prod.ext_iff, formatBatchError]; try omega)

theorem processSeq_append (ns : String) (now : Nat) :
    ∀ (xs ys : List IngestEventRequest) (i : Nat) (st : Store)
      (acc : Nat × Nat × List String),
      processSeq ns now (xs ++ ys) i st acc =
        processSeq ns now ys (i + xs.length)
          (processSeq ns now xs i st acc).1
          (processSeq ns now xs i st acc).2 := by
  intro xs
  induction xs with
  | nil => intro ys i st acc; simp [processSeq]
  | cons x rest ih =>
    intro ys i st acc
    simp only [List.cons_append, processSeq]
    have hidx : i + 1 + rest.length = i + (rest.length + 1) := by omega
    rcases hie : ingestEvent ns x now st with ⟨res, st1⟩
    cases res <;> simp only [List.append_eq, ih, List.length_cons, hidx]

theorem processChunks_eq_processSeq (ns : String) (now : Nat) :
    ∀ (n : Nat) (evs : List IngestEventRequest) (i : Nat) (st : Store)
      (acc : Nat × Nat × List String), evs.length ≤ n →
      processChunks ns now evs i st acc = processSeq ns now evs i st acc := by
  intro n
  induction n with
  | zero =>
    intro evs i st acc h
    have : evs = [] := List.eq_nil_of_length_eq_zero (Nat.le_zero.mp h)
    subst this
    simp [processChunks, processSeq]
  | succ m ih =>
    intro evs i st acc h
    by_cases he : evs = []
    · subst he; simp [processChunks, processSeq]
    · rw [processChunks, dif_neg he]
      have hlen : (evs.drop 100).length ≤ m := by
        have : evs.length ≠ 0 := fun hl => he (List.eq_nil_of_length_eq_zero hl)
        simp only [List.length_drop]
        omega
      rw [ih _ _ _ _ hlen]
      have hap := processSeq_append ns now (evs.take 100) (evs.drop 100) i st acc
      rw [List.take_append_drop] at hap
      by_cases h100 : 100 ≤ evs.length
      · have htk : (evs.take 100).length = 100 := by
          simp only [List.length_take]
          omega
        rw [htk] at hap
        exact hap.symm
      · have hdrop : evs.drop 100 = [] := List.drop_eq_nil_of_le (by omega)
        rw [hdrop] at hap ⊢
        simp only [processSeq] at hap ⊢
        exact hap.symm

/-- Full characterization of `ingestBatchEvents` by the sequential reference
run `batchSpec`. -/

theorem ingestBatchEvents_eq_batchSpec (ns : String)
    (events : List IngestEventRequest) (now : Nat) (st : Store) :
    ingestBatchEvents ns events now st =
      ({ totalEvents := events.length,
         processedEvents := (batchSpec ns now events 0 st).2.1,
         failedEvents := (batchSpec ns now events 0 st).1.length,
         errors := (batchSpec ns now events 0 st).1.map formatBatchError },
       (batchSpec ns now events 0 st).2.2) := by
  unfold ingestBatchEvents
  rw [processChunks_eq_processSeq ns now events.length events 0 st (0, 0, [])
    (Nat.le_refl _)]
  rw [processSeq_eq_batchSpec]
  simp

theorem findOrCreateSubject_preserves (ns k : String) (st : Store) :
    (findOrCreateSubject ns k st).2.meters = st.meters ∧
    (findOrCreateSubject ns k st).2.events = st.events := by
  unfold findOrCreateSubject
  split <;> simp

theorem ingestEvent_events_length (ns : String) (e : IngestEventRequest)
    (now : Nat) (st : Store) :
    (ingestEvent ns e now st).2.events.length =
      st.events.length +
        (match (ingestEvent ns e now st).1 with
          | .ok _ => 1
          | .error _ => 0) := by
  have hpre := (findOrCreateSubject_preserves ns e.subject st).2
  unfold ingestEvent
  rcases hm : findMeterByEventType ns e.type
      (findOrCreateSubject ns e.subject st).2 with _ | meter <;>
    simp [hm, hpre]

theorem batchSpec_counts (ns : String) (now : Nat) :
    ∀ (evs : List IngestEventRequest) (i : Nat) (st : Store),
      (batchSpec ns now evs i st).2.1 + (batchSpec ns now evs i st).1.length
          = evs.length ∧
      (batchSpec ns now evs i st).2.2.events.length
          = st.events.length + (batchSpec ns now evs i st).2.1 := by
  intro evs
  induction evs with
  | nil => intro i st; simp [batchSpec]
  | cons e rest ih =>
    intro i st
    have hlen := ingestEvent_events_length ns e now st
    simp only [batchSpec]
    rcases hie : ingestEvent ns e now st with ⟨res, st1⟩
    rw [hie] at hlen
    cases res with
    | ok r =>
      have := ih (i + 1) st1
      simp only at hlen
      constructor
      · simp only [List.length_cons]
        omega
      · simp only []
        omega
    | error msg =>
      have := ih (i + 1) st1
      simp only at hlen
      constructor
      · simp only [List.length_cons]
        omega
      · simp only []
        omega

/-- Claim C10: for every batch input, `ingestBatchEvents` returns
`totalEvents` equal to the input length, `processedEvents + failedEvents =
totalEvents`, and exactly `failedEvents` entries in `errors`. -/

theorem ingestBatchEvents_invariants (ns : String)
    (evs : List IngestEventRequest) (now : Nat) (st : Store) :
    (ingestBatchEvents ns evs now st).1.totalEvents = evs.length ∧
    (ingestBatchEvents ns evs now st).1.processedEvents +
        (ingestBatchEvents ns evs now st).1.failedEvents =
      (ingestBatchEvents ns evs now st).1.totalEvents ∧
    (ingestBatchEvents ns evs now st).1.errors.length =
      (ingestBatchEvents ns evs now st).1.failedEvents := by
  rw [ingestBatchEvents_eq_batchSpec]
  have h := (batchSpec_counts ns now evs 0 st).1
  exact ⟨rfl, by simpa using h, by simp⟩

/-- Claim C3: a failure ingesting one event never aborts the rest of the
batch: `ingestBatchEvents` coincides with the sequential reference run
`batchSpec`, which attempts every event in order — each failing event
contributes exactly one error `Event <index>: <message>` carrying its
0-based position in the batch, each succeeding event inserts exactly one
event row; in particular a 3-event batch whose 2nd event has no matching
meter yields `processedEvents = 2`, `failedEvents = 1`, and the single
error references index 1 while the other two events are persisted. -/

theorem ingestBatch_partial_failure :
    (∀ (ns : String) (evs : List IngestEventRequest) (now : Nat) (st : Store),
      (ingestBatchEvents ns evs now st).1.errors
          = (batchSpec ns now evs 0 st).1.map formatBatchError ∧
      (ingestBatchEvents ns evs now st).1.processedEvents
          = (batchSpec ns now evs 0 st).2.1 ∧
      (ingestBatchEvents ns evs now st).1.failedEvents
          = (batchSpec ns now evs 0 st).1.length ∧
      (ingestBatchEvents ns evs now st).2
          = (batchSpec ns now evs 0 st).2.2 ∧
      (ingestBatchEvents ns evs now st).2.events.length
          = st.events.length +
              (ingestBatchEvents ns evs now st).1.processedEvents) ∧
    (ingestBatchEvents "default"
        [{ subject := "s1", type := "api_call", timestamp := some 0,
           value := some 1, properties := none },
         { subject := "s1", type := "unmatched", timestamp := some 0,
           value := some 1, properties := none },
         { subject := "s1", type := "api_call", timestamp := some 0,
           value := some 1, properties := none }] 0
        { meters := [{ id := "m1", ns := "default", key := "api",
                       aggregation := .SUM, eventType := "api_call",
                       valueProperty := none, deletedAt := none }],
          subjects := [], events := [], nextId := 0 }).1
      = { totalEvents := 3, processedEvents := 2, failedEvents := 1,
          errors := ["Event 1: No meter found for event type: unmatched"] } ∧
    (ingestBatchEvents "default"
        [{ subject := "s1", type := "api_call", timestamp := some 0,
           value := some 1, properties := none },
         { subject := "s1", type := "unmatched", timestamp := some 0,
           value := some 1, properties := none },
         { subject := "s1", type := "api_call", timestamp := some 0,
           value := some 1, properties := none }] 0
        { meters := [{ id := "m1", ns := "default", key := "api",
                       aggregation := .SUM, eventType := "api_call",
                       valueProperty := none, deletedAt := none }],
          subjects := [], events := [], nextId := 0 }).2.events.length
      = 2 := by
  refine ⟨fun ns evs now st => ?_,
    by rw [ingestBatchEvents_eq_batchSpec]; decide,
    by rw [ingestBatchEvents_eq_batchSpec]; decide⟩
  have h := ingestBatchEvents_eq_batchSpec ns evs now st
  have hc := (batchSpec_counts ns now evs 0 st).2
  rw [h]
  exact ⟨rfl, rfl, rfl, rfl, by simpa using hc⟩

/-- Claim C9: ingesting an event for a subject key unseen in the namespace
creates exactly one new Subject row with `displayName` equal to the key
(that subject being the one `findOrCreateSubject` returns), and a
successful such ingest persists exactly one Event row referencing it; for
an already-existing key the existing row is returned and no Subject row is
added. -/

theorem subject_auto_creation :
    (∀ (ns : String) (e : IngestEventRequest) (now : Nat) (st : Store)
        (r : SingleResult) (st1 : Store),
      st.subjects.find? (fun s => s.ns = ns && s.key = e.subject) = none →
      ingestEvent ns e now st = (.ok r, st1) →
      ∃ newSub : Subject,
        st1.subjects = st.subjects ++ [newSub] ∧
        newSub.ns = ns ∧ newSub.key = e.subject ∧
        newSub.displayName = some e.subject ∧
        (findOrCreateSubject ns e.subject st).1 = newSub ∧
        ∃ row : EventRow, st1.events = st.events ++ [row] ∧
          row.subjectId = newSub.id ∧ row.id = r.eventId) ∧
    (∀ (ns : String) (e : IngestEventRequest) (now : Nat) (st : Store)
        (s0 : Subject),
      st.subjects.find? (fun s => s.ns = ns && s.key = e.subject) = some s0 →
      (findOrCreateSubject ns e.subject st).1 = s0 ∧
      (ingestEvent ns e now st).2.subjects = st.subjects) := by
  constructor
  · intro ns e now st r st1 hfresh hok
    have hfc1 : (findOrCreateSubject ns e.subject st).1 =
        { id := st.freshId, ns := ns, key := e.subject,
          displayName := some e.subject, deletedAt := none } := by
      unfold findOrCreateSubject
      rw [hfresh]
    have hfc2 : (findOrCreateSubject ns e.subject st).2.subjects =
        st.subjects ++ [(findOrCreateSubject ns e.subject st).1] := by
      unfold findOrCreateSubject
      rw [hfresh]
    have hfc3 := (findOrCreateSubject_preserves ns e.subject st).2
    unfold ingestEvent at hok
    simp only [] at hok
    rcases hm : findMeterByEventType ns e.type
        (findOrCreateSubject ns e.subject st).2 with _ | meter
    · rw [hm] at hok
      exact absurd (congrArg (fun p => p.1) hok) (by simp)
    · rw [hm] at hok
      rw [Prod.mk.injEq] at hok
      obtain ⟨h1, h2⟩ := hok
      rw [Except.ok.injEq] at h1
      subst h1
      subst h2
      refine ⟨(findOrCreateSubject ns e.subject st).1,
        by simpa using hfc2, by rw [hfc1], by rw [hfc1], by rw [hfc1], rfl,
        ?_⟩
      refine ⟨_, by simpa using congrArg (fun l => l ++ _) hfc3, rfl, rfl⟩
  · intro ns e now st s0 hfound
    have hfc : findOrCreateSubject ns e.subject st = (s0, st) := by
      unfold findOrCreateSubject
      rw [hfound]
    refine ⟨by rw [hfc], ?_⟩
    unfold ingestEvent
    rw [hfc]
    rcases hm : findMeterByEventType ns e.type st with _ | meter <;>
      simp [hm]

/-- Claim C8: any usage query or report call with a non-empty `groupBy`
parameter is rejected with the GROUP_BY_NOT_SUPPORTED validation error
before any storage aggregation — for every store the result is the same
constant error, never a grouped or silently ungrouped result. -/

theorem groupBy_rejected (st : Store) (q : UsageQueryRequest)
    (qr : UsageReportRequest) (now : Nat) (gbq gbr : List String)
    (hq : q.groupBy = some gbq) (hq1 : gbq ≠ [])
    (hr : qr.groupBy = some gbr) (hr1 : gbr ≠ []) :
    usageQuery st q = .error .GROUP_BY_NOT_SUPPORTED ∧
    usageReport st qr now = .error .GROUP_BY_NOT_SUPPORTED := by
  have hgq : groupByRequested q.groupBy = true := by
    rw [hq]
    simp [groupByRequested, List.length_pos, hq1]
  have hgr : groupByRequested qr.groupBy = true := by
    rw [hr]
    simp [groupByRequested, List.length_pos, hr1]
  constructor
  · unfold usageQuery
    rw [hgq]
    rfl
  · unfold usageReport
    rw [hgr]
    rfl

/-- Witness for `groupBy_rejected` at `groupBy = ["path"]` on an empty
store. -/

theorem groupBy_rejected_witness :
    usageQuery { meters := [], subjects := [], events := [], nextId := 0 }
        { meterId := none, subjectId := none, fromTs := 0, toTs := 1,
          windowSize := none, groupBy := some ["path"] }
      = .error .GROUP_BY_NOT_SUPPORTED ∧
    usageReport { meters := [], subjects := [], events := [], nextId := 0 }
        { meterId := none, subjectId := none, fromTs := none, toTs := none,
          groupBy := some ["path"] } 0
      = .error .GROUP_BY_NOT_SUPPORTED :=
  groupBy_rejected _ _ _ 0 ["path"] ["path"] rfl (by decide) rfl (by decide)

/-- Claim C4: per-bucket aggregation dispatch.  If a meterId is supplied and
that meter's aggregation is COUNT, every bucket row's value is the count of
the matching events in that bucket (independent of stored values);
otherwise — no meterId supplied, or the meter's aggregation is any of
SUM/AVG/MIN/MAX/UNIQUE_COUNT/LATEST — every bucket row's value is the sum
of the matching events' stored values. -/

theorem aggregation_dispatch :
    (∀ (st : Store) (q : UsageQueryRequest) (mid : String) (m : Meter),
      q.meterId = some mid → mid ≠ "" →
      st.meters.find? (fun x => x.id = mid) = some m →
      m.aggregation = Aggregation.COUNT →
      groupByRequested q.groupBy = false →
      ∃ resp, usageQuery st q = .ok resp ∧
        ∀ p ∈ resp.data,
          p.value =
            (((st.events.filter (eventMatches q)).filter fun e =>
              timeBucketExpr (q.windowSize.getD .HOUR) e.timestamp
                == p.timestamp).length : ℚ)) ∧
    (∀ (st : Store) (q : UsageQueryRequest),
      (q.meterId = none ∨
        ∃ mid m, q.meterId = some mid ∧
          st.meters.find? (fun x => x.id = mid) = some m ∧
          m.aggregation ≠ Aggregation.COUNT) →
      groupByRequested q.groupBy = false →
      ∃ resp, usageQuery st q = .ok resp ∧
        ∀ p ∈ resp.data,
          p.value =
            sumValues ((st.events.filter (eventMatches q)).filter fun e =>
              timeBucketExpr (q.windowSize.getD .HOUR) e.timestamp
                == p.timestamp)) := by
  constructor
  · intro st q mid m hmid hmne hfind hagg hgb
    have hic : selectCountAgg st q.meterId = true := by
      rw [hmid]
      simp [selectCountAgg, hmne, hfind, hagg]
    simp only [usageQuery, hgb, Bool.false_eq_true, if_false]
    refine ⟨_, rfl, ?_⟩
    intro p hp
    simp only [List.mem_map] at hp
    obtain ⟨k, hk, rfl⟩ := hp
    simp only [hic, if_true]
  · intro st q hsum hgb
    have hic : selectCountAgg st q.meterId = false := by
      rcases hsum with hnone | ⟨mid, m, hmid, hfind, hagg⟩
      · simp [selectCountAgg, hnone]
      · rw [hmid]
        by_cases hmne : mid = "" <;> simp [selectCountAgg, hmne, hfind, hagg]
    simp only [usageQuery, hgb, Bool.false_eq_true, if_false]
    refine ⟨_, rfl, ?_⟩
    intro p hp
    simp only [List.mem_map] at hp
    obtain ⟨k, hk, rfl⟩ := hp
    simp only [hic, Bool.false_eq_true, if_false]

/-- Witness for `aggregation_dispatch`: a COUNT meter and a SUM meter in one
store, one query against each. -/

theorem aggregation_dispatch_witness :
    (∃ resp,
      usageQuery
        { meters := [{ id := "mc", ns := "default", key := "kc",
                       aggregation := .COUNT, eventType := "tc",
                       valueProperty := none, deletedAt := none },
                     { id := "ms", ns := "default", key := "ks",
                       aggregation := .SUM, eventType := "ts",
                       valueProperty := none, deletedAt := none }],
          subjects := [], events := [], nextId := 0 }
        { meterId := some "mc", subjectId := none, fromTs := 0, toTs := 10,
          windowSize := none, groupBy := none } = .ok resp ∧
      ∀ p ∈ resp.data,
        p.value =
          ((({ meters := [{ id := "mc", ns := "default", key := "kc",
                            aggregation := .COUNT, eventType := "tc",
                            valueProperty := none, deletedAt := none },
                          { id := "ms", ns := "default", key := "ks",
                            aggregation := .SUM, eventType := "ts",
                            valueProperty := none, deletedAt := none }],
               subjects := [], events := [], nextId := 0 : Store}.events.filter
              (eventMatches { meterId := some "mc", subjectId := none,
                              fromTs := 0, toTs := 10, windowSize := none,
                              groupBy := none })).filter fun e =>
            timeBucketExpr .HOUR e.timestamp == p.timestamp).length : ℚ)) ∧
    (∃ resp,
      usageQuery
        { meters := [{ id := "mc", ns := "default", key := "kc",
                       aggregation := .COUNT, eventType := "tc",
                       valueProperty := none, deletedAt := none },
                     { id := "ms", ns := "default", key := "ks",
                       aggregation := .SUM, eventType := "ts",
                       valueProperty := none, deletedAt := none }],
          subjects := [], events := [], nextId := 0 }
        { meterId := some "ms", subjectId := none, fromTs := 0, toTs := 10,
          windowSize := none, groupBy := none } = .ok resp ∧
      ∀ p ∈ resp.data,
        p.value =
          sumValues
            (({ meters := [{ id := "mc", ns := "default", key := "kc",
                             aggregation := .COUNT, eventType := "tc",
                             valueProperty := none, deletedAt := none },
                           { id := "ms", ns := "default", key := "ks",
                             aggregation := .SUM, eventType := "ts",
                             valueProperty := none, deletedAt := none }],
                subjects := [], events := [], nextId := 0 : Store}.events.filter
               (eventMatches { meterId := some "ms", subjectId := none,
                               fromTs := 0, toTs := 10, windowSize := none,
                               groupBy := none })).filter fun e =>
              timeBucketExpr .HOUR e.timestamp == p.timestamp)) :=
  ⟨aggregation_dispatch.1 _ _ "mc"
     { id := "mc", ns := "default", key := "kc", aggregation := .COUNT,
       eventType := "tc", valueProperty := none, deletedAt := none }
     rfl (by decide) (by decide) rfl rfl,
   aggregation_dispatch.2 _ _
     (Or.inr ⟨"ms",
       { id := "ms", ns := "default", key := "ks", aggregation := .SUM,
         eventType := "ts", valueProperty := none, deletedAt := none },
       rfl, by decide, by decide⟩) rfl⟩

/-- Claim C7 (amended): the usage query is not namespace-scoped.  Its
result is fully determined by (i) the multiset of event rows passing the
filter conditions (timestamp range plus optional meterId/subjectId equality)
and (ii) the COUNT/SUM selection for the supplied meterId; events belonging
to other namespaces' meters and subjects are excluded only when a
meterId/subjectId filter happens to exclude them, not by any namespace
condition. -/

theorem usage_query_filter_determined (st1 st2 : Store)
    (q : UsageQueryRequest)
    (hev : st1.events.filter (eventMatches q)
        = st2.events.filter (eventMatches q))
    (hagg : selectCountAgg st1 q.meterId = selectCountAgg st2 q.meterId) :
    usageQuery st1 q = usageQuery st2 q := by
  unfold usageQuery
  rw [hev, hagg]

/-- Witness for `usage_query_filter_determined`: with a `meterId` filter,
adding another namespace's meter/subject/event leaves the response
unchanged. -/

theorem usage_query_filter_determined_witness :
    usageQuery
      { meters := [{ id := "mA", ns := "default", key := "k1",
                     aggregation := .SUM, eventType := "t",
                     valueProperty := none, deletedAt := none }],
        subjects := [{ id := "sA", ns := "default", key := "alice",
                       displayName := some "alice", deletedAt := none }],
        events := [{ id := "e1", meterId := "mA", subjectId := "sA",
                     timestamp := 0, value := 5, properties := none }],
        nextId := 0 }
      { meterId := some "mA", subjectId := none, fromTs := 0,
        toTs := 7200000, windowSize := some .HOUR, groupBy := none } =
    usageQuery
      { meters := [{ id := "mA", ns := "default", key := "k1",
                     aggregation := .SUM, eventType := "t",
                     valueProperty := none, deletedAt := none },
                   { id := "mB", ns := "other", key := "k1",
                     aggregation := .SUM, eventType := "t",
                     valueProperty := none, deletedAt := none }],
        subjects := [{ id := "sA", ns := "default", key := "alice",
                       displayName := some "alice", deletedAt := none },
                     { id := "sB", ns := "other", key := "bob",
                       displayName := some "bob", deletedAt := none }],
        events := [{ id := "e1", meterId := "mA", subjectId := "sA",
                     timestamp := 0, value := 5, properties := none },
                   { id := "e2", meterId := "mB", subjectId := "sB",
                     timestamp := 3600000, value := 7, properties := none }],
        nextId := 0 }
      { meterId := some "mA", subjectId := none, fromTs := 0,
        toTs := 7200000, windowSize := some .HOUR, groupBy := none } :=
  usage_query_filter_determined _ _ _ (by decide) (by decide)

/-- Claim C7 counterexample: without a meterId/subjectId filter, two stores
that differ only in another namespace's slice (its meter, its subject, and
one event referencing them) give different responses to the same query run
on behalf of namespace `default`: the larger store's response has an extra
bucket row coming from namespace `other`'s event. -/

theorem usage_query_namespace_leak :
    (usageQuery
        { meters := [{ id := "mA", ns := "default", key := "k1",
                       aggregation := .SUM, eventType := "t",
                       valueProperty := none, deletedAt := none }],
          subjects := [{ id := "sA", ns := "default", key := "alice",
                         displayName := some "alice", deletedAt := none }],
          events := [{ id := "e1", meterId := "mA", subjectId := "sA",
                       timestamp := 0, value := 5, properties := none }],
          nextId := 0 }
        { meterId := none, subjectId := none, fromTs := 0,
          toTs := 7200000000, windowSize := some .HOUR, groupBy := none }).map
        (fun r => r.data.map fun p => p.timestamp)
      = .ok ["1970-01-01T00:00:00.000Z"] ∧
    (usageQuery
        { meters := [{ id := "mA", ns := "default", key := "k1",
                       aggregation := .SUM, eventType := "t",
                       valueProperty := none, deletedAt := none },
                     { id := "mB", ns := "other", key := "k1",
                       aggregation := .SUM, eventType := "t",
                       valueProperty := none, deletedAt := none }],
          subjects := [{ id := "sA", ns := "default", key := "alice",
                         displayName := some "alice", deletedAt := none },
                       { id := "sB", ns := "other", key := "bob",
                         displayName := some "bob", deletedAt := none }],
          events := [{ id := "e1", meterId := "mA", subjectId := "sA",
                       timestamp := 0, value := 5, properties := none },
                     { id := "e2", meterId := "mB", subjectId := "sB",
                       timestamp := 3600000, value := 7, properties := none }],
          nextId := 0 }
        { meterId := none, subjectId := none, fromTs := 0,
          toTs := 7200000000, windowSize := some .HOUR, groupBy := none }).map
        (fun r => r.data.map fun p => p.timestamp)
      = .ok ["1970-01-01T00:00:00.000Z", "1970-01-01T01:00:00.000Z"] ∧
    (usageQuery
        { meters := [{ id := "mA", ns := "default", key := "k1",
                       aggregation := .SUM, eventType := "t",
                       valueProperty := none, deletedAt := none }],
          subjects := [{ id := "sA", ns := "default", key := "alice",
                         displayName := some "alice", deletedAt := none }],
          events := [{ id := "e1", meterId := "mA", subjectId := "sA",
                       timestamp := 0, value := 5, properties := none }],
          nextId := 0 }
        { meterId := none, subjectId := none, fromTs := 0,
          toTs := 7200000000, windowSize := some .HOUR, groupBy := none }
      = usageQuery
        { meters := [{ id := "mA", ns := "default", key := "k1",
                       aggregation := .SUM, eventType := "t",
                       valueProperty := none, deletedAt := none },
                     { id := "mB", ns := "other", key := "k1",
                       aggregation := .SUM, eventType := "t",
                       valueProperty := none, deletedAt := none }],
          subjects := [{ id := "sA", ns := "default", key := "alice",
                         displayName := some "alice", deletedAt := none },
                       { id := "sB", ns := "other", key := "bob",
                         displayName := some "bob", deletedAt := none }],
          events := [{ id := "e1", meterId := "mA", subjectId := "sA",
                       timestamp := 0, value := 5, properties := none },
                     { id := "e2", meterId := "mB", subjectId := "sB",
                       timestamp := 3600000, value := 7, properties := none }],
          nextId := 0 }
        { meterId := none, subjectId := none, fromTs := 0,
          toTs := 7200000000, windowSize := some .HOUR, groupBy := none }) = False := by
  refine ⟨by decide, by decide, eq_false fun h => ?_⟩
  have hc := congrArg
    (Except.map fun r => r.data.map fun p => p.timestamp) h
  revert hc
  decide

theorem cacheGet_cons_self (key : String) (v : CachedVal) (ts ttl : Nat)
    (c : Cache) (now : Nat) :
    cacheGet ({ key := key, value := v, timestamp := ts, ttl := ttl } :: c)
        key now =
      if ts ≠ 0 && ttl ≠ 0 && decide (now > ts + ttl * 1000) then none
      else some v := by
  unfold cacheGet
  rw [List.find?_cons]
  simp

/-- Claim C5: idempotent replay.  After a single-event ingest completes under
idempotency key `k` and stores its result, a second `POST /events` with the
same namespace, operation kind, and key — any body — returns the stored
result verbatim without ingesting again: both responses carry the same
`eventId` (the replay body is exactly the stored `{eventId, processed}`),
the store is unchanged by the second call, and exactly one Event row was
persisted in total.  (`now2 ≤ now1 + 86400·1000` keeps the second call
within the 24-hour idempotency TTL.) -/

theorem idempotent_replay (ns k : String)
    (body body2 : IngestEventRequest) (now1 now2 : Nat) (st : Store)
    (cache : Cache)
    (hk : k ≠ "")
    (hmiss : checkIdempotency cache k ns "single-event" now1 = none)
    (hok : (ingestEvent ns body now1 st).1.isOk = true)
    (hfresh : now2 ≤ now1 + 86400 * 1000) :
    ∃ (r : SingleResult) (st1 : Store) (cache1 : Cache),
      postEvent ns (some k) body now1 st cache = (.created r now1, st1, cache1) ∧
      postEvent ns (some k) body2 now2 st1 cache1
        = (.replayed (.single r), st1, cache1) ∧
      st1.events.length = st.events.length + 1 := by
  rcases hie : ingestEvent ns body now1 st with ⟨res, st1⟩
  cases res with
  | error msg =>
    rw [hie] at hok
    simp [Except.isOk, Except.toBool] at hok
  | ok r =>
    have hlen := ingestEvent_events_length ns body now1 st
    rw [hie] at hlen
    simp only [] at hlen
    refine ⟨r, st1,
      invalidatePattern
        (storeIdempotencyResult cache k ns "single-event" (.single r) now1)
        ("events:" ++ ns), ?_, ?_, hlen⟩
    · unfold postEvent
      simp only []
      rw [if_neg hk]
      simp only []
      rw [hmiss]
      unfold postEventIngest
      rw [hie]
    · unfold postEvent
      simp only []
      rw [if_neg hk]
      simp only []
      have hpfx : strIsPrefixOf ("events:" ++ ns)
          (createKey "idempotency" [ns, "single-event", k]) = false := by
        have h1 : ("events:" ++ ns).data
            = 'e' :: (['v', 'e', 'n', 't', 's', ':'] ++ ns.data) := by
          rw [String.data_append]
          rfl
        have h2 : (createKey "idempotency" [ns, "single-event", k]).data
            = 'i' :: (['d', 'e', 'm', 'p', 'o', 't', 'e', 'n', 'c', 'y'] ++
                (":" ++ String.intercalate ":"
                  [ns, "single-event", k]).data) := by
          unfold createKey
          rw [String.data_append]
          rfl
        unfold strIsPrefixOf
        rw [h1, h2]
        simp [listIsPrefixOf]
      have hinv : invalidatePattern
          (storeIdempotencyResult cache k ns "single-event"
            (.single r) now1) ("events:" ++ ns)
          = { key := createKey "idempotency" [ns, "single-event", k],
              value := .single r, timestamp := now1, ttl := 24 * 60 * 60 } ::
            invalidatePattern
              (cache.filter fun e =>
                e.key != createKey "idempotency" [ns, "single-event", k])
              ("events:" ++ ns) := by
        unfold storeIdempotencyResult cacheSet invalidatePattern
        rw [List.filter_cons]
        simp [hpfx]
      have hexp : decide (now2 > now1 + 24 * 60 * 60 * 1000) = false := by
        simp only [decide_eq_false_iff_not, gt_iff_lt, not_lt]
        omega
      have hhit : checkIdempotency
          (invalidatePattern
            (storeIdempotencyResult cache k ns "single-event"
              (.single r) now1) ("events:" ++ ns))
          k ns "single-event" now2 = some (.single r) := by
        unfold checkIdempotency
        rw [hinv, cacheGet_cons_self]
        simp [hexp]
      rw [hhit]

/-- Witness for `idempotent_replay`: one meter, empty cache, two calls with
key `abc` at `now = 10` and `now = 20`. -/

theorem idempotent_replay_witness :
    ∃ (r : SingleResult) (st1 : Store) (cache1 : Cache),
      postEvent "default" (some "abc")
          { subject := "s1", type := "t", timestamp := some 0,
            value := some 1, properties := none } 10
          { meters := [{ id := "m1", ns := "default", key := "k",
                         aggregation := .SUM, eventType := "t",
                         valueProperty := none, deletedAt := none }],
            subjects := [], events := [], nextId := 0 } []
        = (.created r 10, st1, cache1) ∧
      postEvent "default" (some "abc")
          { subject := "s2", type := "t", timestamp := some 1,
            value := some 3, properties := none } 20 st1 cache1
        = (.replayed (.single r), st1, cache1) ∧
      st1.events.length =
        ({ meters := [{ id := "m1", ns := "default", key := "k",
                        aggregation := .SUM, eventType := "t",
                        valueProperty := none, deletedAt := none }],
           subjects := [], events := [], nextId := 0 : Store}).events.length
          + 1 :=
  idempotent_replay "default" "abc" _ _ 10 20 _ []
    (by decide) (by decide) (by decide) (by decide)

/-- Claim C6 (code-bug evidence): in a store whose only meter for event type
`api_call` is soft-deleted, the default listing correctly excludes the
meter (and `includeDeleted=true` shows it), but event-type resolution still
returns it — `findMeterByEventType` has no `deletedAt` condition — so
ingesting an event of that type succeeds and persists an event row through
the deleted meter instead of failing with the required "no meter
configured" error. -/

theorem deleted_meter_still_resolves :
    listMeters "default" false
        { meters := [{ id := "m1", ns := "default", key := "api",
                       aggregation := .SUM, eventType := "api_call",
                       valueProperty := none, deletedAt := some 1000 }],
          subjects := [], events := [], nextId := 0 } = [] ∧
    listMeters "default" true
        { meters := [{ id := "m1", ns := "default", key := "api",
                       aggregation := .SUM, eventType := "api_call",
                       valueProperty := none, deletedAt := some 1000 }],
          subjects := [], events := [], nextId := 0 }
      = [{ id := "m1", ns := "default", key := "api",
           aggregation := .SUM, eventType := "api_call",
           valueProperty := none, deletedAt := some 1000 }] ∧
    findMeterByEventType "default" "api_call"
        { meters := [{ id := "m1", ns := "default", key := "api",
                       aggregation := .SUM, eventType := "api_call",
                       valueProperty := none, deletedAt := some 1000 }],
          subjects := [], events := [], nextId := 0 }
      = some { id := "m1", ns := "default", key := "api",
               aggregation := .SUM, eventType := "api_call",
               valueProperty := none, deletedAt := some 1000 } ∧
    (ingestEvent "default"
        { subject := "s1", type := "api_call", timestamp := some 0,
          value := some 1, properties := none } 0
        { meters := [{ id := "m1", ns := "default", key := "api",
                       aggregation := .SUM, eventType := "api_call",
                       valueProperty := none, deletedAt := some 1000 }],
          subjects := [], events := [], nextId := 0 }).1
      = .ok { eventId := "id-1", processed := true } ∧
    (ingestEvent "default"
        { subject := "s1", type := "api_call", timestamp := some 0,
          value := some 1, properties := none } 0
        { meters := [{ id := "m1", ns := "default", key := "api",
                       aggregation := .SUM, eventType := "api_call",
                       valueProperty := none, deletedAt := some 1000 }],
          subjects := [], events := [], nextId := 0 }).2.events.length
      = 1 := by
  refine ⟨by decide, by decide, by decide, by decide, by decide⟩

/-- Witness for `subject_auto_creation`: a fresh subject key on a store
with a matching meter, and an existing subject key on a store that already
holds the subject. -/

theorem subject_auto_creation_witness :
    (∃ newSub : Subject,
      ({ meters := [{ id := "m1", ns := "default", key := "k",
                      aggregation := .SUM, eventType := "t",
                      valueProperty := none, deletedAt := none }],
         subjects := [{ id := "id-0", ns := "default", key := "alice",
                        displayName := some "alice", deletedAt := none }],
         events := [{ id := "id-1", meterId := "m1", subjectId := "id-0",
                      timestamp := 5, value := 2, properties := none }],
         nextId := 2 : Store}).subjects
          = ({ meters := [{ id := "m1", ns := "default", key := "k",
                            aggregation := .SUM, eventType := "t",
                            valueProperty := none, deletedAt := none }],
               subjects := [], events := [], nextId := 0 : Store}).subjects
              ++ [newSub] ∧
      newSub.ns = "default" ∧ newSub.key = "alice" ∧
      newSub.displayName = some "alice" ∧
      (findOrCreateSubject "default" "alice"
        { meters := [{ id := "m1", ns := "default", key := "k",
                       aggregation := .SUM, eventType := "t",
                       valueProperty := none, deletedAt := none }],
          subjects := [], events := [], nextId := 0 }).1 = newSub ∧
      ∃ row : EventRow,
        ({ meters := [{ id := "m1", ns := "default", key := "k",
                        aggregation := .SUM, eventType := "t",
                        valueProperty := none, deletedAt := none }],
           subjects := [{ id := "id-0", ns := "default", key := "alice",
                          displayName := some "alice", deletedAt := none }],
           events := [{ id := "id-1", meterId := "m1", subjectId := "id-0",
                        timestamp := 5, value := 2, properties := none }],
           nextId := 2 : Store}).events
            = ({ meters := [{ id := "m1", ns := "default", key := "k",
                              aggregation := .SUM, eventType := "t",
                              valueProperty := none, deletedAt := none }],
                 subjects := [], events := [], nextId := 0 : Store}).events
                ++ [row] ∧
        row.subjectId = newSub.id ∧
        row.id = ({ eventId := "id-1", processed := true
                    : SingleResult }).eventId) ∧
    ((findOrCreateSubject "default" "alice"
        { meters := [], subjects := [{ id := "s9", ns := "default",
                                       key := "alice", displayName := none,
                                       deletedAt := none }],
          events := [], nextId := 0 }).1
      = { id := "s9", ns := "default", key := "alice", displayName := none,
          deletedAt := none } ∧
     (ingestEvent "default"
        { subject := "alice", type := "t", timestamp := some 5000,
          value := some 2, properties := none } 7
        { meters := [], subjects := [{ id := "s9", ns := "default",
                                       key := "alice", displayName := none,
                                       deletedAt := none }],
          events := [], nextId := 0 }).2.subjects
      = ({ meters := [], subjects := [{ id := "s9", ns := "default",
                                        key := "alice", displayName := none,
                                        deletedAt := none }],
           events := [], nextId := 0 : Store}).subjects) :=
  ⟨subject_auto_creation.1 "default"
     { subject := "alice", type := "t", timestamp := some 5000,
       value := some 2, properties := none } 7
     { meters := [{ id := "m1", ns := "default", key := "k",
                    aggregation := .SUM, eventType := "t",
                    valueProperty := none, deletedAt := none }],
       subjects := [], events := [], nextId := 0 }
     { eventId := "id-1", processed := true }
     { meters := [{ id := "m1", ns := "default", key := "k",
                    aggregation := .SUM, eventType := "t",
                    valueProperty := none, deletedAt := none }],
       subjects := [{ id := "id-0", ns := "default", key := "alice",
                      displayName := some "alice", deletedAt := none }],
       events := [{ id := "id-1", meterId := "m1", subjectId := "id-0",
                    timestamp := 5, value := 2, properties := none }],
       nextId := 2 }
     (by decide) (by decide),
   subject_auto_creation.2 "default"
     { subject := "alice", type := "t", timestamp := some 5000,
       value := some 2, properties := none } 7
     { meters := [], subjects := [{ id := "s9", ns := "default",
                                    key := "alice", displayName := none,
                                    deletedAt := none }],
       events := [], nextId := 0 }
     { id := "s9", ns := "default", key := "alice", displayName := none,
       deletedAt := none }
     (by decide)⟩

/-! ## Order theory for the BINARY collation -/


theorem char_eq_of_toNat_eq {a b : Char} (h : a.toNat = b.toNat) : a = b :=
  Char.ext (UInt32.ext h)

theorem cmpBytes_eq_iff : ∀ (a b : List Char), cmpBytes a b = .eq ↔ a = b := by
  intro a
  induction a with
  | nil => intro b; cases b <;> simp [cmpBytes]
  | cons x xs ih =>
    intro b
    cases b with
    | nil => simp [cmpBytes]
    | cons y ys =>
      unfold cmpBytes
      split_ifs with h1 h2
      · constructor
        · intro hc; cases hc
        · intro hc
          injection hc with hx hxs
          rw [hx] at h1
          omega
      · constructor
        · intro hc; cases hc
        · intro hc
          injection hc with hx hxs
          rw [hx] at h2
          omega
      · have hx : x = y := char_eq_of_toNat_eq (by omega)
        subst hx
        rw [ih]
        simp

theorem cmpBytes_swap : ∀ (a b : List Char),
    cmpBytes b a = (cmpBytes a b).swap := by
  intro a
  induction a with
  | nil => intro b; cases b <;> rfl
  | cons x xs ih =>
    intro b
    cases b with
    | nil => rfl
    | cons y ys =>
      unfold cmpBytes
      split_ifs <;> first | rfl | omega | exact ih ys

theorem cmpBytes_lt_trans : ∀ (a b c : List Char),
    cmpBytes a b = .lt → cmpBytes b c = .lt → cmpBytes a c = .lt := by
  intro a
  induction a with
  | nil =>
    intro b c hab hbc
    cases b with
    | nil => cases hab
    | cons y ys =>
      cases c with
      | nil => cases hbc
      | cons z zs => rfl
  | cons x xs ih =>
    intro b c hab hbc
    cases b with
    | nil => cases hab
    | cons y ys =>
      cases c with
      | nil => cases hbc
      | cons z zs =>
        unfold cmpBytes at hab hbc ⊢
        split_ifs at hab hbc ⊢ <;>
          first
            | rfl
            | omega
            | cases hab
            | cases hbc
            | exact ih ys zs hab hbc

theorem strLtB_iff_cmp (a b : String) :
    strLtB a b = true ↔ cmpBytes a.data b.data = .lt := by
  unfold strLtB strCmp
  rcases h : cmpBytes a.data b.data <;> simp

theorem strLeB_iff (a b : String) :
    strLeB a b = true ↔ cmpBytes a.data b.data ≠ .gt := by
  unfold strLeB bytesLe
  rcases h : cmpBytes a.data b.data <;> simp

theorem strLeB_total (a b : String) :
    strLeB a b = true ∨ strLeB b a = true := by
  rw [strLeB_iff, strLeB_iff, cmpBytes_swap a.data b.data]
  rcases cmpBytes a.data b.data <;> simp [Ordering.swap]

theorem strLeB_trans {a b c : String} (hab : strLeB a b = true)
    (hbc : strLeB b c = true) : strLeB a c = true := by
  rw [strLeB_iff] at hab hbc ⊢
  rcases h1 : cmpBytes a.data b.data with _ | _ | _ <;> rw [h1] at hab
  · rcases h2 : cmpBytes b.data c.data with _ | _ | _ <;> rw [h2] at hbc
    · rw [cmpBytes_lt_trans _ _ _ h1 h2]
      simp
    · rw [(cmpBytes_eq_iff _ _).mp h2] at h1
      rw [h1]
      simp
    · exact absurd rfl hbc
  · rw [(cmpBytes_eq_iff _ _).mp h1]
    exact hbc
  · exact absurd rfl hab

theorem strLtB_of_le_of_ne {a b : String} (hle : strLeB a b = true)
    (hne : a ≠ b) : strLtB a b = true := by
  rw [strLeB_iff] at hle
  rw [strLtB_iff_cmp]
  rcases h : cmpBytes a.data b.data with _ | _ | _
  · rfl
  · exact absurd (congrArg String.mk ((cmpBytes_eq_iff _ _).mp h)) hne
  · exact absurd h hle

theorem mem_insertStrAsc (x : String) : ∀ (l : List String) (a : String),
    a ∈ insertStrAsc x l ↔ a = x ∨ a ∈ l := by
  intro l
  induction l with
  | nil => intro a; simp [insertStrAsc]
  | cons y ys ih =>
    intro a
    unfold insertStrAsc
    by_cases h : strLeB x y
    · rw [if_pos h]
      simp
    · rw [if_neg h]
      simp only [List.mem_cons, ih]
      tauto

theorem mem_sortStrAsc (l : List String) (a : String) :
    a ∈ sortStrAsc l ↔ a ∈ l := by
  induction l with
  | nil => simp [sortStrAsc]
  | cons y ys ih =>
    unfold sortStrAsc
    rw [mem_insertStrAsc]
    simp [ih]

theorem nodup_insertStrAsc (x : String) : ∀ (l : List String),
    x ∉ l → l.Nodup → (insertStrAsc x l).Nodup := by
  intro l
  induction l with
  | nil => intro _ _; simp [insertStrAsc]
  | cons y ys ih =>
    intro hx hl
    rw [List.nodup_cons] at hl
    unfold insertStrAsc
    by_cases h : strLeB x y
    · rw [if_pos h, List.nodup_cons, List.nodup_cons]
      exact ⟨fun hc => hx (by simpa using hc), hl⟩
    · rw [if_neg h, List.nodup_cons, mem_insertStrAsc]
      refine ⟨?_, ih (fun hc => hx (List.mem_cons_of_mem _ hc)) hl.2⟩
      rintro (rfl | hc)
      · exact hx (List.mem_cons_self _ _)
      · exact hl.1 hc

theorem nodup_sortStrAsc (l : List String) (h : l.Nodup) :
    (sortStrAsc l).Nodup := by
  induction l with
  | nil => simp [sortStrAsc]
  | cons y ys ih =>
    rw [List.nodup_cons] at h
    unfold sortStrAsc
    exact nodup_insertStrAsc y _
      (fun hc => h.1 ((mem_sortStrAsc ys y).mp hc)) (ih h.2)

theorem pairwise_insertStrAsc (x : String) : ∀ (l : List String),
    l.Pairwise (fun a b => strLeB a b = true) →
    (insertStrAsc x l).Pairwise (fun a b => strLeB a b = true) := by
  intro l
  induction l with
  | nil => intro _; simp [insertStrAsc]
  | cons y ys ih =>
    intro hl
    rw [List.pairwise_cons] at hl
    unfold insertStrAsc
    by_cases h : strLeB x y
    · rw [if_pos h, List.pairwise_cons]
      refine ⟨?_, List.pairwise_cons.mpr hl⟩
      intro b hb
      rcases List.mem_cons.mp hb with rfl | hb
      · exact h
      · exact strLeB_trans h (hl.1 b hb)
    · have hyx : strLeB y x = true := by
        rcases strLeB_total x y with hc | hc
        · exact absurd hc h
        · exact hc
      rw [if_neg h, List.pairwise_cons]
      refine ⟨?_, ih hl.2⟩
      intro b hb
      rcases (mem_insertStrAsc x ys b).mp hb with rfl | hb
      · exact hyx
      · exact hl.1 b hb

theorem pairwise_sortStrAsc (l : List String) :
    (sortStrAsc l).Pairwise (fun a b => strLeB a b = true) := by
  induction l with
  | nil => simp [sortStrAsc]
  | cons y ys ih =>
    unfold sortStrAsc
    exact pairwise_insertStrAsc y _ ih

theorem padNum_length : ∀ (w n : Nat), (padNum w n).length = w := by
  intro w
  induction w with
  | zero => intro n; rfl
  | succ v ih => intro n; simp [padNum, ih]

theorem ordering_then_eq (x : Ordering) : x.then .eq = x := by
  cases x <;> rfl

theorem cmpBytes_cons (x y : Char) (xs ys : List Char) :
    cmpBytes (x :: xs) (y :: ys) =
      if x.toNat < y.toNat then .lt
      else if y.toNat < x.toNat then .gt else cmpBytes xs ys := rfl

theorem cmpBytes_append : ∀ (a b t u : List Char), a.length = b.length →
    cmpBytes (a ++ t) (b ++ u) = (cmpBytes a b).then (cmpBytes t u) := by
  intro a
  induction a with
  | nil =>
    intro b t u h
    have hb : b = [] := List.eq_nil_of_length_eq_zero h.symm
    subst hb
    simp [cmpBytes, Ordering.then]
  | cons x xs ih =>
    intro b t u h
    cases b with
    | nil => simp at h
    | cons y ys =>
      simp only [List.cons_append, cmpBytes_cons]
      split_ifs <;> simp only [Ordering.then]
      exact ih ys t u (by simpa using h)

theorem cmpBytes_cons_same (c : Char) (t u : List Char) :
    cmpBytes (c :: t) (c :: u) = cmpBytes t u := by
  rw [cmpBytes_cons, if_neg (by omega), if_neg (by omega)]

theorem cmpBytes_digit : ∀ r, r < 10 → ∀ s, s < 10 →
    cmpBytes [Char.ofNat (48 + r)] [Char.ofNat (48 + s)] = compare r s := by
  decide

theorem nat_compare_div_mod (a b : Nat) :
    compare a b
      = (compare (a / 10) (b / 10)).then (compare (a % 10) (b % 10)) := by
  rcases h1 : compare (a / 10) (b / 10) with _ | _ | _
  · rw [Nat.compare_eq_lt] at h1
    rw [Nat.compare_eq_lt.mpr (show a < b by omega)]
    rfl
  · rw [Nat.compare_eq_eq] at h1
    rcases h2 : compare (a % 10) (b % 10) with _ | _ | _
    · rw [Nat.compare_eq_lt] at h2
      rw [Nat.compare_eq_lt.mpr (show a < b by omega)]
      rfl
    · rw [Nat.compare_eq_eq] at h2
      rw [Nat.compare_eq_eq.mpr (show a = b by omega)]
      rfl
    · rw [Nat.compare_eq_gt] at h2
      rw [Nat.compare_eq_gt.mpr (show b < a by omega)]
      rfl
  · rw [Nat.compare_eq_gt] at h1
    rw [Nat.compare_eq_gt.mpr (show b < a by omega)]
    rfl

theorem cmpBytes_padNum : ∀ (w a b : Nat), a < 10 ^ w → b < 10 ^ w →
    cmpBytes (padNum w a) (padNum w b) = compare a b := by
  intro w
  induction w with
  | zero =>
    intro a b ha hb
    rw [pow_zero] at ha hb
    have ha0 : a = 0 := by omega
    have hb0 : b = 0 := by omega
    subst ha0
    subst hb0
    rfl
  | succ v ih =>
    intro a b ha hb
    rw [pow_succ] at ha hb
    have hda : a / 10 < 10 ^ v := by omega
    have hdb : b / 10 < 10 ^ v := by omega
    unfold padNum
    rw [cmpBytes_append _ _ _ _ (by rw [padNum_length, padNum_length])]
    rw [ih _ _ hda hdb]
    rw [cmpBytes_digit (a % 10) (by omega) (b % 10) (by omega)]
    exact (nat_compare_div_mod a b).symm

theorem cmpBytes_renderIso (a b : CivilTime) (ha : CivilBounded a)
    (hb : CivilBounded b) :
    cmpBytes (renderIso a) (renderIso b) = CivilTime.cmp a b := by
  obtain ⟨ha1, ha2, ha3, ha4, ha5, ha6⟩ := ha
  obtain ⟨hb1, hb2, hb3, hb4, hb5, hb6⟩ := hb
  have e4 : (10 : Nat) ^ 4 = 10000 := by norm_num
  have e2 : (10 : Nat) ^ 2 = 100 := by norm_num
  unfold renderIso CivilTime.cmp
  simp only [List.append_assoc, List.singleton_append, List.cons_append,
    List.nil_append]
  rw [cmpBytes_append (padNum 4 a.year) (padNum 4 b.year) _ _
      (by rw [padNum_length, padNum_length]),
    cmpBytes_padNum 4 _ _ (by omega) (by omega), cmpBytes_cons_same]
  rw [cmpBytes_append (padNum 2 a.month) (padNum 2 b.month) _ _
      (by rw [padNum_length, padNum_length]),
    cmpBytes_padNum 2 _ _ (by omega) (by omega), cmpBytes_cons_same]
  rw [cmpBytes_append (padNum 2 a.day) (padNum 2 b.day) _ _
      (by rw [padNum_length, padNum_length]),
    cmpBytes_padNum 2 _ _ (by omega) (by omega), cmpBytes_cons_same]
  rw [cmpBytes_append (padNum 2 a.hour) (padNum 2 b.hour) _ _
      (by rw [padNum_length, padNum_length]),
    cmpBytes_padNum 2 _ _ (by omega) (by omega), cmpBytes_cons_same]
  rw [cmpBytes_append (padNum 2 a.minute) (padNum 2 b.minute) _ _
      (by rw [padNum_length, padNum_length]),
    cmpBytes_padNum 2 _ _ (by omega) (by omega), cmpBytes_cons_same]
  rw [cmpBytes_append (padNum 2 a.second) (padNum 2 b.second) _ _
      (by rw [padNum_length, padNum_length]),
    cmpBytes_padNum 2 _ _ (by omega) (by omega)]
  rw [show cmpBytes ['.', '0', '0', '0', 'Z'] ['.', '0', '0', '0', 'Z']
      = .eq from rfl]
  rw [ordering_then_eq]

theorem civil_cmp_lt_iff (a b : CivilTime) :
    CivilTime.cmp a b = .lt ↔ CivilTime.ltB a b = true := by
  unfold CivilTime.cmp
  rcases hcyear : compare a.year b.year with _ | _ | _
  · have hlt : a.year < b.year := Nat.compare_eq_lt.mp hcyear
    simp [CivilTime.ltB, Ordering.then, Nat.ne_of_lt hlt, hlt]
  · have hyear : a.year = b.year := Nat.compare_eq_eq.mp hcyear
    rcases hcmonth : compare a.month b.month with _ | _ | _
    · have hlt : a.month < b.month := Nat.compare_eq_lt.mp hcmonth
      simp [CivilTime.ltB, Ordering.then, hyear, Nat.ne_of_lt hlt, hlt]
    · have hmonth : a.month = b.month := Nat.compare_eq_eq.mp hcmonth
      rcases hcday : compare a.day b.day with _ | _ | _
      · have hlt : a.day < b.day := Nat.compare_eq_lt.mp hcday
        simp [CivilTime.ltB, Ordering.then, hyear, hmonth, Nat.ne_of_lt hlt, hlt]
      · have hday : a.day = b.day := Nat.compare_eq_eq.mp hcday
        rcases hchour : compare a.hour b.hour with _ | _ | _
        · have hlt : a.hour < b.hour := Nat.compare_eq_lt.mp hchour
          simp [CivilTime.ltB, Ordering.then, hyear, hmonth, hday, Nat.ne_of_lt hlt, hlt]
        · have hhour : a.hour = b.hour := Nat.compare_eq_eq.mp hchour
          rcases hcminute : compare a.minute b.minute with _ | _ | _
          · have hlt : a.minute < b.minute := Nat.compare_eq_lt.mp hcminute
            simp [CivilTime.ltB, Ordering.then, hyear, hmonth, hday, hhour, Nat.ne_of_lt hlt, hlt]
          · have hminute : a.minute = b.minute := Nat.compare_eq_eq.mp hcminute
            rcases hcsecond : compare a.second b.second with _ | _ | _
            · have hlt : a.second < b.second := Nat.compare_eq_lt.mp hcsecond
              simp [CivilTime.ltB, Ordering.then, hyear, hmonth, hday, hhour, hminute, Nat.ne_of_lt hlt, hlt]
            · have hsecond : a.second = b.second := Nat.compare_eq_eq.mp hcsecond
              simp [CivilTime.ltB, Ordering.then, hyear, hmonth, hday, hhour, hminute, hsecond]
            · have hgt : b.second < a.second := Nat.compare_eq_gt.mp hcsecond
              simp [CivilTime.ltB, Ordering.then, hyear, hmonth, hday, hhour, hminute,
                (show a.second ≠ b.second by omega), (show ¬a.second < b.second by omega)]
          · have hgt : b.minute < a.minute := Nat.compare_eq_gt.mp hcminute
            simp [CivilTime.ltB, Ordering.then, hyear, hmonth, hday, hhour,
              (show a.minute ≠ b.minute by omega), (show ¬a.minute < b.minute by omega)]
        · have hgt : b.hour < a.hour := Nat.compare_eq_gt.mp hchour
          simp [CivilTime.ltB, Ordering.then, hyear, hmonth, hday,
            (show a.hour ≠ b.hour by omega), (show ¬a.hour < b.hour by omega)]
      · have hgt : b.day < a.day := Nat.compare_eq_gt.mp hcday
        simp [CivilTime.ltB, Ordering.then, hyear, hmonth,
          (show a.day ≠ b.day by omega), (show ¬a.day < b.day by omega)]
    · have hgt : b.month < a.month := Nat.compare_eq_gt.mp hcmonth
      simp [CivilTime.ltB, Ordering.then, hyear,
        (show a.month ≠ b.month by omega), (show ¬a.month < b.month by omega)]
  · have hgt : b.year < a.year := Nat.compare_eq_gt.mp hcyear
    simp [CivilTime.ltB, Ordering.then,
      (show a.year ≠ b.year by omega), (show ¬a.year < b.year by omega)]

/-- Every timestamp expressible in the API's 4-digit-year ISO format
(at most 9999-12-31T23:59:59.999Z) has a civil time within the fixed
rendering widths. -/

theorem civilOfMs_bounded (ms : Nat) (h : ms ≤ 253402300799999) :
    CivilBounded (civilOfMs ms) := by
  unfold CivilBounded civilOfMs civilFromDays
  refine ⟨?_, ?_, ?_, ?_, ?_, ?_⟩ <;> simp only [] <;>
    first
      | (split_ifs <;> omega)
      | omega

theorem truncCivil_bounded (ws : WindowSize) (c : CivilTime)
    (h : CivilBounded c) : CivilBounded (truncCivil ws c) := by
  obtain ⟨h1, h2, h3, h4, h5, h6⟩ := h
  cases ws <;> simp [truncCivil, CivilBounded] <;> omega

theorem map_timestamp_mk (keys : List String) (f : String → ℚ) :
    (keys.map fun k => ({ timestamp := k, value := f k } : UsageDataPoint)).map
        (fun p => p.timestamp) = keys := by
  induction keys with
  | nil => rfl
  | cons k ks ih => simp [ih]

theorem exists_civil_starts : ∀ (l : List String),
    (∀ s ∈ l, ∃ c : CivilTime, CivilBounded c ∧ s = String.mk (renderIso c)) →
    l.Pairwise (fun a b => strLtB a b = true) →
    ∃ starts : List CivilTime,
      l = starts.map (fun c => String.mk (renderIso c)) ∧
      (∀ c ∈ starts, CivilBounded c) ∧
      starts.Chain' (fun a b => CivilTime.ltB a b = true) := by
  intro l
  induction l with
  | nil => intro _ _; exact ⟨[], rfl, by simp, List.chain'_nil⟩
  | cons s t ih =>
    intro himg hpw
    rw [List.pairwise_cons] at hpw
    obtain ⟨c, hc, rfl⟩ := himg s (List.mem_cons_self _ _)
    obtain ⟨starts, hmap, hbd, hch⟩ :=
      ih (fun x hx => himg x (List.mem_cons_of_mem _ hx)) hpw.2
    refine ⟨c :: starts, ?_, ?_, ?_⟩
    · rw [List.map_cons, ← hmap]
    · intro x hx
      rcases List.mem_cons.mp hx with rfl | hx
      · exact hc
      · exact hbd x hx
    · cases starts with
      | nil => exact List.chain'_singleton _
      | cons c2 rest =>
        rw [List.chain'_cons]
        refine ⟨?_, hch⟩
        have hmem : String.mk (renderIso c2) ∈ t := by
          rw [hmap, List.map_cons]
          exact List.mem_cons_self _ _
        have hlt := hpw.1 _ hmem
        rw [strLtB_iff_cmp] at hlt
        have hcmp : cmpBytes (renderIso c) (renderIso c2) = .lt := hlt
        rw [cmpBytes_renderIso c c2 hc (hbd c2 (List.mem_cons_self _ _))]
          at hcmp
        exact (civil_cmp_lt_iff c c2).mp hcmp

/-- Claim C1: refuted — code bug.  The claim (and spec property P5) says each
matching event is assigned the bucket obtained by calendar-aligned UTC
truncation of the event's timestamp per the window size.  But the
`events.timestamp` column stores epoch seconds (the Drizzle column mode
`timestamp` writes `Math.floor(ms / 1000)`, and `schema.sql` defaults the
column to `unixepoch()`), while `timeBucketExpr` divides the stored value by
1000 again before `datetime(…, 'unixepoch')` — so the bucket rendered is the
civil time of `storedSeconds / 1000`, not of the event's actual time.  On
the P5 fixture — events at 1970-01-01T10:00:05Z, 10:00:45Z and 10:01:10Z,
ingested with millisecond timestamps 36005000/36045000/36070000 and hence
stored as 36005/36045/36070, queried with MINUTE windows over
[10:00:00Z, 10:02:00Z] — this theorem shows: (i) ingestion really stores
epoch seconds; (ii) the code's bucket for each of the three stored values is
`1970-01-01T00:00:00.000Z`; (iii) the calendar-aligned MINUTE truncation of
the events' actual timestamps, which the claim requires, is
`1970-01-01T10:00:00.000Z` for the first two and `1970-01-01T10:01:00.000Z`
for the third; (iv) the unit-consistent range filter admits all three
events, yet the query response collapses to the single bucket
`1970-01-01T00:00:00.000Z` instead of the claimed 10:00 and 10:01 buckets. -/

theorem usage_query_bucket_unit_mismatch :
    (ingestEvent "default"
        { subject := "alice", type := "t", timestamp := some 36005000,
          value := some 2, properties := none } 0
        { meters := [{ id := "mA", ns := "default", key := "k1",
                       aggregation := .SUM, eventType := "t",
                       valueProperty := none, deletedAt := none }],
          subjects := [{ id := "sA", ns := "default", key := "alice",
                         displayName := some "alice", deletedAt := none }],
          events := [], nextId := 0 }).2.events.map (fun e => e.timestamp)
      = [36005] ∧
    timeBucketExpr .MINUTE 36005 = "1970-01-01T00:00:00.000Z" ∧
    timeBucketExpr .MINUTE 36045 = "1970-01-01T00:00:00.000Z" ∧
    timeBucketExpr .MINUTE 36070 = "1970-01-01T00:00:00.000Z" ∧
    String.mk (renderIso (truncCivil .MINUTE (civilOfMs 36005000)))
      = "1970-01-01T10:00:00.000Z" ∧
    String.mk (renderIso (truncCivil .MINUTE (civilOfMs 36070000)))
      = "1970-01-01T10:01:00.000Z" ∧
    (List.filter (eventMatches
        { meterId := some "mA", subjectId := none, fromTs := 36000000,
          toTs := 36120000, windowSize := some .MINUTE, groupBy := none })
        [{ id := "e1", meterId := "mA", subjectId := "sA",
           timestamp := 36005, value := 2, properties := none },
         { id := "e2", meterId := "mA", subjectId := "sA",
           timestamp := 36045, value := 3, properties := none },
         { id := "e3", meterId := "mA", subjectId := "sA",
           timestamp := 36070, value := 4, properties := none }]).length
      = 3 ∧
    (usageQuery
        { meters := [{ id := "mA", ns := "default", key := "k1",
                       aggregation := .SUM, eventType := "t",
                       valueProperty := none, deletedAt := none }],
          subjects := [{ id := "sA", ns := "default", key := "alice",
                         displayName := some "alice", deletedAt := none }],
          events := [{ id := "e1", meterId := "mA", subjectId := "sA",
                       timestamp := 36005, value := 2, properties := none },
                     { id := "e2", meterId := "mA", subjectId := "sA",
                       timestamp := 36045, value := 3, properties := none },
                     { id := "e3", meterId := "mA", subjectId := "sA",
                       timestamp := 36070, value := 4, properties := none }],
          nextId := 0 }
        { meterId := some "mA", subjectId := none, fromTs := 36000000,
          toTs := 36120000, windowSize := some .MINUTE, groupBy := none }).map
        (fun r => r.data.map fun p => p.timestamp)
      = .ok ["1970-01-01T00:00:00.000Z"] := by
  exact ⟨by decide, by decide, by decide, by decide, by decide, by decide,
    by decide, by decide⟩

end OpenMeter
